import Mathlib

/-!
Shallow embedding of the wafer outer-layer manager
(`src/outer_layer_manager.py`).

The program keeps a cross-unit index (table `wafer_metadata` in the
global index database) and one per-unit detail store (table
`defect_info` in `database.db` inside the unit folder).  The embedding
models files as lists of lines, both stores as Lean structures, SQL
NULL as `Option`, and Python ints as `Int`/`Nat`.  Timestamps are
abstract `Nat` ticks supplied by the caller.

The program computes the stored `progress` in IEEE-754 double
precision: `labeled / total` is the correctly rounded double of the
exact ratio, `* 100` is a correctly rounded double multiplication, and
Python `round(x, 2)` rounds the exact value of that double to two
decimal places, half to even.  The result always has exactly two
decimal places, so the embedding represents it exactly by the integer
`progress100` = 100 times the stored decimal value (stored `20.00` is
`2000`); `progress100_of` below implements the double-precision
pipeline bit-exactly over the integers (`divD`, `fitD`).  Separately,
`roundQ2` is the exact rational two-decimal rounding — the idealized
reading of `round(labeled/total*100, 2)` — which the program does NOT
always match, because it rounds the double, not the ratio (for
example the program stores 14.37 for 23/160 where the exact rounding
of 14.375 is 14.38).
-/

/-- One row of the per-unit `defect_info` table.  `adc_type = none`
models SQL NULL (unlabeled).  The optional columns `severity`,
`comment`, `label_time` are `Option`; `label_count` has SQL default 0.
Whether those columns exist at all is tracked in `InnerDB`. -/
structure DefectRow where
  defect_id : String
  center_x : Int
  center_y : Int
  ai_adc_type : Int
  adc_type : Option Int
  severity : Option String
  comment : Option String
  label_time : Option Nat
  label_count : Int
deriving DecidableEq

/-- The per-unit detail store: which lazily added columns exist, plus
the rows of `defect_info` in rowid order. -/
structure InnerDB where
  hasSeverity : Bool
  hasComment : Bool
  hasLabelTime : Bool
  hasLabelCount : Bool
  rows : List DefectRow
deriving DecidableEq

/-- One row of the global index table `wafer_metadata`.
`label_status`: 0 = not started, 1 = in progress, 2 = complete.
`parsed_status`: 0 = unparsed, 1 = parsed, 2 = error.
`progress100` is 100 times the stored progress value (exact, since the
stored value has two decimal places). -/
structure WaferRecord where
  wafer_id : String
  wafer_name : String
  folder_path : String
  total_defects : Int
  labeled_defects : Int
  progress100 : Int
  label_status : Int
  parsed_status : Int
  parse_error : Option String
  last_operated : Nat
  create_time : Nat
deriving DecidableEq

/-- A unit folder on disk: presence of `raw_data.txt` and its lines,
and presence of the two reference images. -/
structure Folder where
  path : String
  name : String
  hasRawData : Bool
  rawDataLines : List String
  hasBrightField : Bool
  hasDarkField : Bool
deriving DecidableEq

/- ## Python round(x, 2): rational meaning and integer computation -/

/-- Executable floor of a rational (agrees with `Int.floor`, see
`ratFloor_eq`). -/
def ratFloor (q : ℚ) : ℤ :=
  q.num / (q.den : ℤ)

theorem ratFloor_eq (q : ℚ) : ratFloor q = ⌊q⌋ :=
  Rat.floor_def.symm

/-- Round a rational to the nearest integer, half to even (the tie
rule of both IEEE-754 round-to-nearest and Python `round`). -/
def ratRound (q : ℚ) : ℤ :=
  if 2 * (q - ratFloor q) < 1 then ratFloor q
  else if 1 < 2 * (q - ratFloor q) then ratFloor q + 1
  else if ratFloor q % 2 = 0 then ratFloor q else ratFloor q + 1

/-- Exact two-decimal half-to-even rounding of a rational: the
idealized reading of `round(x, 2)`.  CPython applies this rounding to
the exact value of the double `x`, not to the underlying ratio, so the
program's stored progress can differ from `roundQ2` of the true
percentage (see the C5 counterexample). -/
def roundQ2 (q : ℚ) : ℚ :=
  (ratRound (q * 100) : ℚ) / 100

/-- Half-to-even rounding of the exact quotient `a / b`, for `b > 0`,
computed on integers. -/
def intRoundHalfEven (a b : ℤ) : ℤ :=
  if 2 * (a % b) < b then a / b
  else if b < 2 * (a % b) then a / b + 1
  else if (a / b) % 2 = 0 then a / b else a / b + 1

/-- Number of binary digits of `n` (0 for `n = 0`), by structural
recursion on a fuel argument so the kernel can evaluate it. -/
def bitlenAux : Nat → Nat → Nat
  | 0, _ => 0
  | fuel + 1, n => if n = 0 then 0 else bitlenAux fuel (n / 2) + 1

def bitlen (n : Nat) : Nat :=
  bitlenAux n n

/-- Correctly rounded IEEE-754 double of `l / t` for `0 < l`, `0 < t`,
returned as a dyadic pair `(m, q)` of value `m * 2 ^ q`: the exponent
of the exact quotient is located by bit lengths, the quantum is
clamped at the subnormal limit, and the mantissa is the half-to-even
rounding of the quotient on that grid. -/
def divDpos (l t : ℤ) : ℤ × ℤ :=
  let d : ℤ := (bitlen l.toNat : ℤ) - (bitlen t.toNat : ℤ)
  let e : ℤ :=
    if t * 2 ^ (max 0 d).toNat ≤ l * 2 ^ (max 0 (-d)).toNat then d else d - 1
  let q : ℤ := max (e - 52) (-1074)
  if 0 ≤ q then (intRoundHalfEven l (t * 2 ^ q.toNat), q)
  else (intRoundHalfEven (l * 2 ^ (-q).toNat) t, q)

/-- Correctly rounded IEEE-754 double of `l / t` for `0 < t` (sign
handled by symmetry of round-to-nearest-even). -/
def divD (l t : ℤ) : ℤ × ℤ :=
  if l = 0 then (0, 0)
  else if 0 < l then divDpos l t
  else (-(divDpos (-l) t).1, (divDpos (-l) t).2)

/-- Round the exact dyadic value `a * 2 ^ p`, `0 < a`, to double
precision. -/
def fitDpos (a : ℤ) (p : ℤ) : ℤ × ℤ :=
  let e : ℤ := p + (bitlen a.toNat : ℤ) - 1
  let q : ℤ := max (e - 52) (-1074)
  if q ≤ p then (a * 2 ^ (p - q).toNat, q)
  else (intRoundHalfEven a (2 ^ (q - p).toNat), q)

/-- Round the exact dyadic value `a * 2 ^ p` to double precision. -/
def fitD (a : ℤ) (p : ℤ) : ℤ × ℤ :=
  if a = 0 then (0, 0)
  else if 0 < a then fitDpos a p
  else (-(fitDpos (-a) p).1, (fitDpos (-a) p).2)

/-- Lines 537-538: `progress = (labeled / total * 100) if total > 0
else 0` followed by `progress = round(progress, 2)`, computed the way
the program computes it — in IEEE-754 double precision: divide
(correctly rounded), multiply by 100 (the exact product re-rounded to
a double), then round the exact value of the resulting double to two
decimals, half to even (CPython rounds floats by correctly rounded
decimal conversion).  The result is the stored decimal value times
100; the double the program stores and compares is the double nearest
that decimal, and since hundredths are spaced far wider than one ulp
here, `progress == 100` holds exactly when this value is 10000. -/
def progress100_of (labeled total : Int) : Int :=
  if 0 < total then
    let dq := divD labeled total
    let dp := fitD (100 * dq.1) dq.2
    if 0 ≤ dp.2 then 100 * dp.1 * 2 ^ dp.2.toNat
    else intRoundHalfEven (100 * dp.1) (2 ^ (-dp.2).toNat)
  else 0

/-- Lines 541-547: derive `label_status` from the rounded progress
(`progress == 100` is `progress100 = 10000`) and the labeled count. -/
def label_status_from_progress (progress100 : Int) (labeled : Int) : Int :=
  if progress100 = 10000 then 2 else if 0 < labeled then 1 else 0

/-- The composite map `(labeled, total) -> label_status` realized by
`_sync_progress`. -/
def label_status_of (labeled total : Int) : Int :=
  label_status_from_progress (progress100_of labeled total) labeled

example : progress100_of 99999 100000 = 10000 := by decide
example : label_status_of 99999 100000 = 2 := by decide
example : label_status_of 1 5 = 1 := by decide
example : label_status_of 0 5 = 0 := by decide
example : label_status_of 5 5 = 2 := by decide
example : progress100_of 1 5 = 2000 := by decide
example : progress100_of 1 3 = 3333 := by decide
example : progress100_of 1 8 = 1250 := by decide
example : progress100_of 3 8 = 3750 := by decide

/- ## String primitives (structural, so the kernel can evaluate them) -/

/-- Whitespace for Python `str.strip`. -/
def isSpaceChar (c : Char) : Bool :=
  c == ' ' || c == '\t' || c == '\n' || c == '\r'

/-- Python `line.strip()`. -/
def strTrim (s : String) : String :=
  String.mk (((s.data.dropWhile isSpaceChar).reverse.dropWhile isSpaceChar).reverse)

/-- Split a character list at every comma. -/
def splitCommaChars : List Char → List (List Char)
  | [] => [[]]
  | c :: rest =>
    if c == ',' then [] :: splitCommaChars rest
    else
      match splitCommaChars rest with
      | [] => [[c]]
      | h :: t => (c :: h) :: t

/-- Python `line.split(",")`. -/
def strSplitComma (s : String) : List String :=
  (splitCommaChars s.data).map String.mk

/-- Python `line.startswith("#")`. -/
def startsWithHash (s : String) : Bool :=
  match s.data with
  | [] => false
  | c :: _ => c == '#'

def digitsToNatAux : List Char → Nat → Option Nat
  | [], acc => some acc
  | c :: rest, acc =>
    if c.isDigit then digitsToNatAux rest (acc * 10 + (c.toNat - 48)) else none

def digitsToNat (l : List Char) : Option Nat :=
  match l with
  | [] => none
  | _ => digitsToNatAux l 0

/-- Python `int(s)` on an already stripped string: optional sign, then
decimal digits; anything else raises `ValueError` (`none`). -/
def parsePyInt (s : String) : Option Int :=
  match s.data with
  | [] => none
  | c :: rest =>
    if c == '-' then (digitsToNat rest).map (fun n => -(n : Int))
    else if c == '+' then (digitsToNat rest).map (fun n => (n : Int))
    else (digitsToNat (c :: rest)).map (fun n => (n : Int))

/- ## Report parsing and detail-store creation -/

/-- Line 125 of `_create_inner_database` (and line 439 of
`_sync_progress`): strip each line, drop blank lines and lines whose
stripped form starts with the comment mark. -/
def filterLines (fileLines : List String) : List String :=
  (fileLines.map strTrim).filter
    (fun l => !(l == "") && !(startsWithHash l))

/-- Lines 140-170: parse one data line.  Split on commas; require at
least 4 fields, a non-empty stripped defect id, and integer-parseable
numeric fields; otherwise the line is skipped (`none`).  A freshly
imported row has `adc_type` NULL and none of the optional columns. -/
def parseLine (line : String) : Option DefectRow :=
  let parts := strSplitComma line
  if 4 ≤ parts.length then
    let did := strTrim (parts.getD 0 (""))
    if did == "" then none
    else
      match parsePyInt (strTrim (parts.getD 1 (""))),
          parsePyInt (strTrim (parts.getD 2 (""))),
          parsePyInt (strTrim (parts.getD 3 (""))) with
      | some x, some y, some ai => some ⟨did, x, y, ai, none, none, none, none, 0⟩
      | _, _, _ => none
  else none

/-- `INSERT OR REPLACE` keyed on the primary key `defect_id`: a
replaced row gets a fresh rowid, so it moves to the end of rowid
order. -/
def insertOrReplace (rows : List DefectRow) (r : DefectRow) : List DefectRow :=
  rows.filter (fun x => !(x.defect_id == r.defect_id)) ++ [r]

/-- The rows of `defect_info` produced by importing a report: comment
and blank lines removed, header dropped, each remaining line parsed
(malformed lines skipped), parsed rows inserted with
`INSERT OR REPLACE`. -/
def parsedStore (reportLines : List String) : List DefectRow :=
  (((filterLines reportLines).drop 1).filterMap parseLine).foldl insertOrReplace []

/-- Lines 73-231, `_create_inner_database`: delete any old store file,
build the `defect_info` table inside one transaction, and in the
`finally` block delete the store file whenever the row count is zero
or was never computed.  `sqlFailure` models a database error raised
before the transaction commits (the `except` arms roll back, and the
`finally` block then deletes the file).  `none` means no store file is
left on disk; `some db` is the committed store. -/
def create_inner_database (reportLines : List String) (sqlFailure : Bool) :
    Option InnerDB :=
  if sqlFailure then none
  else if (filterLines reportLines).isEmpty then none
  else if (parsedStore reportLines).isEmpty then none
  else some ⟨false, false, false, false, parsedStore reportLines⟩

/-- Lines 50-71, `_parse_wafer_folder`: require `raw_data.txt` and both
reference images, count defects as the raw line count minus one (no
comment filtering here), create the detail store, and return the
count. -/
def parse_wafer_folder (f : Folder) :
    Except String (Int × Option InnerDB) :=
  if !f.hasRawData then Except.error ("raw_data.txt does not exist")
  else if !(f.hasBrightField && f.hasDarkField) then
    Except.error ("bright or dark field image missing")
  else
    Except.ok ((f.rawDataLines.length : Int) - 1,
      create_inner_database f.rawDataLines false)

/- ## Example reports used by the concrete evaluations -/

/-- Report with a header, three well-formed lines and one malformed
line (the example of claim C2). -/
def exampleReport4 : List String :=
  [("defect_id,center_x,center_y,ai_adc_type"),
   ("D1,10,20,1"), ("D2,30,40,2"), ("D3,50,60,3"), ("X,1,2")]

/-- Report with a header and five well-formed lines (the example of
claim C1). -/
def exampleReport5 : List String :=
  [("defect_id,center_x,center_y,ai_adc_type"),
   ("D1,11,21,1"), ("D2,12,22,2"), ("D3,13,23,3"),
   ("D4,14,24,1"), ("D5,15,25,2")]

example : (parsedStore exampleReport4).length = 3 := by decide
example : (parsedStore exampleReport5).length = 5 := by decide
example : (parsedStore exampleReport5).head?.map (fun r => r.defect_id) =
    some ("D1") := by decide
example : parseLine ("X,1,2") = none := by decide
example : create_inner_database exampleReport4 false =
    some ⟨false, false, false, false, parsedStore exampleReport4⟩ := by decide
example : create_inner_database [("# only a comment"), (""), ("   ")] false = none := by
  decide
example : create_inner_database [("header only")] false = none := by decide

/- ## The global index operations -/

/-- `_calculate_wafer_id` (lines 46-48): a deterministic digest of the
folder path.  The digest value plays no role in any claim below, so it
is modelled as the path string itself (deterministic and injective,
like the digest). -/
def calculate_wafer_id (folderPath : String) : String :=
  folderPath

/-- The `UPDATE` used by every error arm of `_sync_progress` and
`load_wafer_folders`: set `parsed_status = 2`, record the message, and
stamp `last_operated`. -/
def errorUpdate (rec : WaferRecord) (msg : String) (now : Nat) : WaferRecord :=
  { rec with parsed_status := 2, parse_error := some msg, last_operated := now }

/-- SQL `ai_adc_type != adc_type`: comparison with NULL is unknown, so
rows with NULL `adc_type` are not selected. -/
def sqlNe (ai : Int) (adc : Option Int) : Bool :=
  match adc with
  | some a => !(ai == a)
  | none => false

/-- Line 525: SQL `ai_adc_type != adc_type OR (severity IS NOT NULL
AND severity not empty)`. -/
def severityMarked (r : DefectRow) : Bool :=
  sqlNe r.ai_adc_type r.adc_type ||
    (match r.severity with
     | some s => !(s == "")
     | none => false)

/-- Lines 512-532: count labeled defects by the best available rule:
`label_count >= 1` if that column exists, else the severity heuristic,
else the type-difference fallback. -/
def count_labeled (db : InnerDB) : Int :=
  if db.hasLabelCount then
    ((db.rows.filter (fun r => decide (1 ≤ r.label_count))).length : Int)
  else if db.hasSeverity then
    ((db.rows.filter severityMarked).length : Int)
  else
    ((db.rows.filter (fun r => sqlNe r.ai_adc_type r.adc_type)).length : Int)

/-- Lines 549-557: the single UPDATE of the success arm of
`_sync_progress`: all derived fields, `parsed_status = 1`, prior
`parse_error` cleared. -/
def successUpdate (rec : WaferRecord) (db : InnerDB) (now : Nat) : WaferRecord :=
  { rec with
    total_defects := (db.rows.length : Int),
    labeled_defects := count_labeled db,
    progress100 := progress100_of (count_labeled db) (db.rows.length : Int),
    label_status :=
      label_status_from_progress
        (progress100_of (count_labeled db) (db.rows.length : Int)) (count_labeled db),
    parsed_status := 1, parse_error := none, last_operated := now }

/-- Lines 408-569, `_sync_progress`: if `raw_data.txt` is missing, mark
the unit as a parse failure and leave the detail store alone.
Otherwise delete the store, re-read the report (error if no surviving
lines), rebuild the store with `_create_inner_database` (error if the
store file is then absent), and recompute every derived field from the
rebuilt store.  The zero-row retry of lines 502-510 cannot fire:
`_create_inner_database` never leaves a zero-row store on disk. -/
def sync_progress (f : Folder) (oldDB : Option InnerDB) (rec : WaferRecord)
    (now : Nat) : WaferRecord × Option InnerDB :=
  if f.hasRawData then
    if (filterLines f.rawDataLines).length < 1 then
      (errorUpdate rec ("raw_data.txt empty or malformed") now, none)
    else
      match create_inner_database f.rawDataLines false with
      | none => (errorUpdate rec ("inner database creation failed") now, none)
      | some db => (successUpdate rec db now, some db)
  else (errorUpdate rec ("raw_data.txt does not exist") now, oldDB)

/-- Lines 571-587, `sync_wafer_progress`: look up the unit, run
`_sync_progress` if it exists, and report whether it existed. -/
def sync_wafer_progress (f : Folder) (record : Option WaferRecord)
    (db : Option InnerDB) (now : Nat) :
    (Option WaferRecord × Option InnerDB) × Bool :=
  match record with
  | none => ((none, db), false)
  | some rec =>
      let p := sync_progress f db rec now
      ((some p.1, p.2), true)

/- ## Discovery / ingestion of one candidate folder -/

/-- The column list named by the fresh-ingest INSERT of
`load_wafer_folders` (lines 273-278, and identically lines 287-292). -/
def freshInsertColumns : List String :=
  [("wafer_id"), ("wafer_name"), ("folder_path"), ("total_defects"),
   ("progress"), ("label_status"), ("parsed_status"), ("last_operated")]

/-- The number of placeholders (and bound values) supplied by that
INSERT. -/
def freshInsertValueCount : Nat := 9

/-- A `wafer_metadata` row as created by an INSERT that names only some
columns: every unnamed column takes its schema default (counts 0,
progress 0, statuses 0, NULL error, current timestamp). -/
def defaultRecord (f : Folder) (now : Nat) : WaferRecord :=
  { wafer_id := calculate_wafer_id f.path, wafer_name := f.name,
    folder_path := f.path, total_defects := 0, labeled_defects := 0,
    progress100 := 0, label_status := 0, parsed_status := 0,
    parse_error := none, last_operated := now, create_time := now }

/-- Lines 307-318: the `except` arm of `load_wafer_folders` for a
candidate with no prior index row: INSERT an error row. -/
def errorInsert (f : Folder) (msg : String) (now : Nat) : WaferRecord :=
  { defaultRecord f now with parsed_status := 2, parse_error := some msg }

/-- Lines 255-321, the per-candidate body of `load_wafer_folders`.
With a prior index record the unit is force-resynchronized; without
one the folder is parsed and a fresh index row is inserted.  The
fresh-ingest INSERT names the 8 columns of `freshInsertColumns` but
binds `freshInsertValueCount = 9` values; sqlite rejects an INSERT
whose value count differs from its named column count, so this branch
raises and the `except` arm records the unit as a parse failure
instead. -/
def ingest_candidate (f : Folder) (existing : Option WaferRecord)
    (db : Option InnerDB) (now : Nat) : Option WaferRecord × Option InnerDB :=
  match existing with
  | some rec =>
      let p := sync_progress f db rec now
      (some p.1, p.2)
  | none =>
      match parse_wafer_folder f with
      | Except.error msg => (some (errorInsert f msg now), db)
      | Except.ok (cnt, newDB) =>
          if freshInsertColumns.length = freshInsertValueCount then
            (some { defaultRecord f now with total_defects := cnt, parsed_status := 1 },
             newDB)
          else
            (some (errorInsert f ("9 values for 8 columns") now), newDB)

/- ## Labeling -/

/-- The state save_label operates on: the unit folder, its index row
(if any) and its detail store (if any). -/
structure WaferState where
  folder : Folder
  record : Option WaferRecord
  innerDB : Option InnerDB
deriving DecidableEq

/-- The success envelope returned by `save_label`. -/
structure SaveResult where
  success : Bool
  error : Option String
deriving DecidableEq

/-- Line 836-837: map the classification name to its number; unknown
names map to 0. -/
def typeMap (s : String) : Int :=
  if s == "Particle" then 1
  else if s == "Scratch" then 2
  else if s == "Stain" then 3
  else if s == "Pinhole" then 4
  else if s == "Other" then 5
  else 0

/-- Lines 855-863: ALTER TABLE adds whichever optional columns are
missing; an added `label_count` column defaults to 0, which is what
fresh rows already carry. -/
def addColumns (db : InnerDB) : InnerDB :=
  { db with
    hasSeverity := true
    hasComment := true
    hasLabelTime := true
    hasLabelCount := true }

/-- Lines 866-869: UPDATE the row whose `defect_id` matches the
target: classification, severity, comment, timestamp, and
`label_count = label_count + 1`. -/
def updateDefect (rows : List DefectRow) (target : String) (adc : Int)
    (sev com : String) (now : Nat) : List DefectRow :=
  rows.map (fun r =>
    if r.defect_id == target then
      { r with
        adc_type := some adc
        severity := some sev
        comment := some com
        label_time := some now
        label_count := r.label_count + 1 }
    else r)

/-- Lines 811-885, `WebInterface.save_label`: resolve the unit; open
its store; fetch the defect ids in rowid order; if `defect_index` is
in range, add the optional columns and UPDATE the indexed row —
otherwise do nothing at all; then synchronously run
`sync_wafer_progress` and report success.  An out-of-range index is
not reported. -/
def save_label (st : WaferState) (defectIndex : Int) (adcType : String)
    (severity comment : Option String) (now : Nat) : WaferState × SaveResult :=
  let sev := severity.getD ("")
  let com := comment.getD ("")
  match st.record with
  | none => (st, ⟨false, some ("wafer does not exist")⟩)
  | some rec =>
    match st.innerDB with
    | none => (st, ⟨false, some ("no such table: defect_info")⟩)
    | some db =>
      let db1 :=
        if 0 ≤ defectIndex ∧ defectIndex < ((db.rows.length : Nat) : Int) then
          { addColumns db with
            rows := updateDefect db.rows
              ((db.rows.map (fun r => r.defect_id)).getD defectIndex.toNat (""))
              (typeMap adcType) sev com now }
        else db
      let p := sync_progress st.folder (some db1) rec now
      ({ st with record := some p.1, innerDB := p.2 }, ⟨true, none⟩)

/- ## Reset -/

/-- Lines 589-625, `reset_wafer_status`: for a known unit, delete the
detail store file and UPDATE only `parsed_status = 0`,
`parse_error = NULL` and `last_operated`; the index row is retained.
An unknown unit reports failure. -/
def reset_wafer_status (record : Option WaferRecord) (db : Option InnerDB)
    (now : Nat) : (Option WaferRecord × Option InnerDB) × Bool :=
  match record with
  | none => ((none, db), false)
  | some rec =>
      ((some { rec with
          parsed_status := 0
          parse_error := none
          last_operated := now }, none), true)

/- ## Export -/

/-- The flat export file: a name line, a header line, then one line
per exported defect row. -/
structure ExportedFile where
  wafer_name : String
  rows : List DefectRow
deriving DecidableEq

/-- Lines 663-711, `export_wafer_kfl`: unknown unit and missing detail
store are errors; with `export_all` or `label_status = 2` every row is
exported, otherwise only rows with `ai_adc_type != adc_type` (SQL
semantics, so NULL `adc_type` rows are excluded). -/
def export_wafer_kfl (record : Option WaferRecord) (db : Option InnerDB)
    (exportAll : Bool) : Except String ExportedFile :=
  match record with
  | none => Except.error ("wafer does not exist")
  | some rec =>
    match db with
    | none => Except.error ("inner database does not exist")
    | some d =>
      if exportAll || (rec.label_status == 2) then
        Except.ok ⟨rec.wafer_name, d.rows⟩
      else
        Except.ok ⟨rec.wafer_name,
          d.rows.filter (fun r => sqlNe r.ai_adc_type r.adc_type)⟩

/-- Success projection of an export result. -/
def exportResult (e : Except String ExportedFile) : Option ExportedFile :=
  match e with
  | Except.ok f => some f
  | Except.error _ => none

/-- Lines 713-738, `batch_export_kfl`: export each id with
`export_all` false, skip the ids whose export reports an error, bundle
the successes, and fail exactly when there are none. -/
def batch_export_kfl (look : String → Option WaferRecord × Option InnerDB)
    (ids : List String) : Except String (List ExportedFile) :=
  if (ids.filterMap
      (fun i => exportResult (export_wafer_kfl (look i).1 (look i).2 false))).isEmpty then
    Except.error ("no exportable wafers found")
  else
    Except.ok (ids.filterMap
      (fun i => exportResult (export_wafer_kfl (look i).1 (look i).2 false)))

/- ## Concrete example states -/

/-- The C2 example folder: report with header, 3 well-formed lines and
1 malformed line, both images present. -/
def exampleFolder4 : Folder :=
  ⟨("/data/wafer4"), ("wafer4"), true, exampleReport4, true, true⟩

/-- The C1 example folder: report with header and 5 well-formed lines,
both images present. -/
def exampleFolder5 : Folder :=
  ⟨("/data/wafer5"), ("wafer5"), true, exampleReport5, true, true⟩

/-- Fresh discovery of the 5-row unit: no prior index row, no detail
store. -/
def ingested5 : Option WaferRecord × Option InnerDB :=
  ingest_candidate exampleFolder5 none none 0

/-- The state of the freshly ingested 5-row unit. -/
def st5 : WaferState :=
  ⟨exampleFolder5, ingested5.1, ingested5.2⟩

/-- The labeling call of claim C1: row 0, classification Particle. -/
def afterLabel5 : WaferState × SaveResult :=
  save_label st5 0 ("Particle") none none 7

example : ingested5.2 = some ⟨false, false, false, false, parsedStore exampleReport5⟩ := by
  decide
example : (afterLabel5.1.record.map (fun r => r.progress100)) = some 0 := by decide

/-- The 4-tuple of derived counters the reconciliation claims talk
about. -/
def statusTuple (r : WaferRecord) : Int × Int × Int × Int :=
  (r.total_defects, r.labeled_defects, r.progress100, r.label_status)

/- ## Claim theorems -/

/-- C1: the claim expects that labeling row 0 of a freshly ingested
5-row unit sets `adc_type` and `label_count = 1` on that defect record
and that the synchronous reconciliation leaves the unit at progress
20.00 (`progress100 = 2000`) and `label_status = in_progress` (1).
The evaluation shows the UPDATE does write `adc_type = 1` and
`label_count = 1`, and the call reports success, but the
reconciliation rebuilds the detail store from the raw report, erasing
the label: the index row ends with `progress100 = 0` and
`label_status = 0` (not started), not 2000 and 1. -/
theorem c1_label_row0_evaluation :
    (parsedStore exampleReport5).length = 5 ∧
    ((updateDefect (parsedStore exampleReport5) ("D1") 1 ("") ("") 7).head?.map
      (fun r => (r.adc_type, r.label_count)) = some (some 1, 1)) ∧
    afterLabel5.2 = ⟨true, none⟩ ∧
    (afterLabel5.1.record.map
      (fun r => (r.progress100, r.label_status, r.parsed_status)) = some (0, 0, 1)) ∧
    ¬ (afterLabel5.1.record.map
      (fun r => (r.progress100, r.label_status)) = some (2000, 1)) := by
  decide

/-- C2: the claim expects fresh ingestion of a valid candidate (header
plus 3 well-formed lines plus 1 malformed line) to insert an index row
with `parsed_status = parsed` and `total_defects = 3`.  The evaluation
shows the detail store is built with the 3 parsed rows, but the
fresh-ingest INSERT names 8 columns while binding 9 values, so sqlite
rejects it and the unit is recorded as a parse failure
(`parsed_status = 2`), never as parsed. -/
theorem c2_fresh_ingest_evaluation :
    freshInsertColumns.length = 8 ∧ freshInsertValueCount = 9 ∧
    (parsedStore exampleReport4).length = 3 ∧
    (ingest_candidate exampleFolder4 none none 0).2 =
      some ⟨false, false, false, false, parsedStore exampleReport4⟩ ∧
    ((ingest_candidate exampleFolder4 none none 0).1.map
      (fun r => (r.parsed_status, r.parse_error)) =
      some (2, some ("9 values for 8 columns"))) ∧
    ¬ ((ingest_candidate exampleFolder4 none none 0).1.map
      (fun r => r.parsed_status) = some 1) := by
  decide

/-- C3: with the raw report unchanged and no intervening labeling,
running `_sync_progress` twice leaves the same `(total_defects,
labeled_defects, progress, label_status)` in the index as running it
once: the success arm derives these fields from the report content
alone, and every error arm leaves all four fields untouched. -/
theorem c3_sync_idempotent (f : Folder) (odb : Option InnerDB)
    (rec : WaferRecord) (now1 now2 : Nat) :
    statusTuple (sync_progress f (sync_progress f odb rec now1).2
      (sync_progress f odb rec now1).1 now2).1 =
    statusTuple (sync_progress f odb rec now1).1 := by
  unfold sync_progress
  by_cases hraw : f.hasRawData
  · simp only [hraw, if_true]
    by_cases hempty : (filterLines f.rawDataLines).length < 1
    · simp [hempty, errorUpdate, statusTuple]
    · simp only [hempty, if_false]
      cases hdb : create_inner_database f.rawDataLines false with
      | none => simp [errorUpdate, statusTuple]
      | some db => simp [successUpdate, statusTuple]
  · simp [hraw, errorUpdate, statusTuple]

/-- C6: detail-store creation is all-or-nothing: whenever
`_create_inner_database` returns, either no store file is on disk, or
the store holds at least one row and its rows are exactly the
successfully parsed rows of the report (inserted with
`INSERT OR REPLACE`). -/
theorem c6_store_all_or_nothing (reportLines : List String) (sqlFailure : Bool) :
    create_inner_database reportLines sqlFailure = none ∨
    ∃ db, create_inner_database reportLines sqlFailure = some db ∧
      1 ≤ db.rows.length ∧ db.rows = parsedStore reportLines := by
  unfold create_inner_database
  split
  · exact Or.inl rfl
  · split
    · exact Or.inl rfl
    · split
      · exact Or.inl rfl
      · rename_i hne
        refine Or.inr ⟨_, rfl, ?_, rfl⟩
        rcases hrows : parsedStore reportLines with _ | ⟨a, l⟩
        · rw [hrows] at hne; simp at hne
        · simp

/-- C7: export of a unit known to the index: with a missing detail
store the export fails with the no-detail-store error; with
`include_all` or `label_status = complete` every row is exported;
otherwise only the rows whose `adc_type` differs from `ai_adc_type`
(SQL semantics: NULL `adc_type` rows are excluded). -/
theorem c7_export_row_selection (rec : WaferRecord) (d : InnerDB)
    (exportAll : Bool) :
    export_wafer_kfl (some rec) none exportAll =
      Except.error ("inner database does not exist") ∧
    ((exportAll = true ∨ rec.label_status = 2) →
      export_wafer_kfl (some rec) (some d) exportAll =
        Except.ok ⟨rec.wafer_name, d.rows⟩) ∧
    (exportAll = false → ¬ rec.label_status = 2 →
      export_wafer_kfl (some rec) (some d) exportAll =
        Except.ok ⟨rec.wafer_name,
          d.rows.filter (fun r => sqlNe r.ai_adc_type r.adc_type)⟩) := by
  refine ⟨rfl, ?_, ?_⟩
  · rintro (h | h) <;> simp [export_wafer_kfl, h]
  · intro h1 h2
    simp [export_wafer_kfl, h1, h2]

/-- An index row with `label_status = 0` used by the export
witnesses. -/
def exRec7 : WaferRecord :=
  defaultRecord exampleFolder5 0

/-- A detail store holding the five parsed rows of the 5-row
report. -/
def exDb7 : InnerDB :=
  ⟨false, false, false, false, parsedStore exampleReport5⟩

theorem c7_witness :
    export_wafer_kfl (some exRec7) (some exDb7) true =
      Except.ok ⟨exRec7.wafer_name, exDb7.rows⟩ ∧
    export_wafer_kfl (some exRec7) (some exDb7) false =
      Except.ok ⟨exRec7.wafer_name,
        exDb7.rows.filter (fun r => sqlNe r.ai_adc_type r.adc_type)⟩ :=
  ⟨(c7_export_row_selection exRec7 exDb7 true).2.1 (Or.inl rfl),
   (c7_export_row_selection exRec7 exDb7 false).2.2 rfl (by decide)⟩

/-- C8: batch export exports each id independently (with
`export_all` false), skips the ids whose export fails, bundles exactly
the successful files, and reports a batch-level error precisely when
no unit exported successfully. -/
theorem c8_batch_export (look : String → Option WaferRecord × Option InnerDB)
    (ids : List String) :
    (∀ fs, batch_export_kfl look ids = Except.ok fs →
      fs = ids.filterMap
        (fun i => exportResult (export_wafer_kfl (look i).1 (look i).2 false)) ∧
      fs ≠ []) ∧
    ((∃ e, batch_export_kfl look ids = Except.error e) ↔
      ∀ i ∈ ids,
        exportResult (export_wafer_kfl (look i).1 (look i).2 false) = none) := by
  unfold batch_export_kfl
  constructor
  · intro fs h
    split at h
    · cases h
    · rename_i hne
      cases h
      exact ⟨rfl, by simpa [List.isEmpty_eq_true] using hne⟩
  · rw [← List.filterMap_eq_nil_iff, ← List.isEmpty_eq_true]
    constructor
    · rintro ⟨e, he⟩
      by_cases hcase : (ids.filterMap
          (fun i => exportResult (export_wafer_kfl (look i).1 (look i).2 false))).isEmpty
      · exact hcase
      · rw [if_neg (by simpa using hcase)] at he
        cases he
    · intro hempty
      exact ⟨("no exportable wafers found"), by rw [if_pos hempty]⟩

/-- Lookup for the C8 witness: unit A has an index row and a detail
store, unit B has an index row but no detail store. -/
def exLook8 : String → Option WaferRecord × Option InnerDB :=
  fun i =>
    if i == "A" then (some exRec7, some exDb7)
    else if i == "B" then (some (defaultRecord exampleFolder4 0), none)
    else (none, none)

theorem c8_witness :
    ([("A"), ("B")].filterMap
        (fun i => exportResult (export_wafer_kfl (exLook8 i).1 (exLook8 i).2 false)) =
      [⟨exRec7.wafer_name,
        exDb7.rows.filter (fun r => sqlNe r.ai_adc_type r.adc_type)⟩] ∧
      batch_export_kfl exLook8 [("A"), ("B")] =
        Except.ok [⟨exRec7.wafer_name,
          exDb7.rows.filter (fun r => sqlNe r.ai_adc_type r.adc_type)⟩]) ∧
    ([⟨exRec7.wafer_name,
        exDb7.rows.filter (fun r => sqlNe r.ai_adc_type r.adc_type)⟩] =
      [("A"), ("B")].filterMap
        (fun i => exportResult (export_wafer_kfl (exLook8 i).1 (exLook8 i).2 false)) ∧
      ([⟨exRec7.wafer_name,
        exDb7.rows.filter (fun r => sqlNe r.ai_adc_type r.adc_type)⟩] :
          List ExportedFile) ≠ []) := by
  refine ⟨⟨by decide, rfl⟩, ?_⟩
  exact (c8_batch_export exLook8 [("A"), ("B")]).1 _ rfl

/-- An index row with distinctive values for the reset claim. -/
def exRec9 : WaferRecord :=
  { wafer_id := ("w9"), wafer_name := ("w9"), folder_path := ("/data/w9"),
    total_defects := 5, labeled_defects := 2, progress100 := 4000,
    label_status := 1, parsed_status := 1, parse_error := some ("old failure"),
    last_operated := 0, create_time := 0 }

/-- A detail store present before the reset. -/
def exDb9 : InnerDB :=
  ⟨false, false, false, false, parsedStore exampleReport5⟩

/-- C9 counterexample: the claim says reset retains the index row with
all fields other than `parsed_status` and `parse_error` unchanged, so
at time 5 the retained row would be exactly `exRec9` with only those
two fields changed; the code also stamps `last_operated`, so the
result differs from that row. -/
theorem c9_counterexample :
    ¬ (reset_wafer_status (some exRec9) (some exDb9) 5 =
      ((some { exRec9 with parsed_status := 0, parse_error := none }, none), true)) := by
  decide

/-- C9 (amended): reset on a known unit deletes the detail store,
sets `parsed_status = unparsed`, clears `parse_error`, and stamps
`last_operated` with the reset time; every other field of the retained
index row (including `total_defects` and `labeled_defects`) is
unchanged.  Reset on an unknown unit reports failure and changes
nothing. -/
theorem c9_amended_reset (rec : WaferRecord) (db odb : Option InnerDB) (now : Nat) :
    reset_wafer_status (some rec) db now =
      ((some { rec with
          parsed_status := 0
          parse_error := none
          last_operated := now }, none), true) ∧
    reset_wafer_status none odb now = ((none, odb), false) :=
  ⟨rfl, rfl⟩

/-- C10: a labeling call whose row selector is out of range for an
existing unit with a detail store applies no classification to any
defect record (the store handed to the reconciliation is the original
one), yet still runs the full synchronous reconciliation and returns
success with no error. -/
theorem c10_out_of_range_label (st : WaferState) (rec : WaferRecord)
    (db : InnerDB) (idx : Int) (adcType : String) (sev com : Option String)
    (now : Nat) (hrec : st.record = some rec) (hdb : st.innerDB = some db)
    (hidx : ¬ (0 ≤ idx ∧ idx < ((db.rows.length : Nat) : Int))) :
    save_label st idx adcType sev com now =
      ({ st with
          record := some (sync_progress st.folder (some db) rec now).1
          innerDB := (sync_progress st.folder (some db) rec now).2 },
        ⟨true, none⟩) := by
  unfold save_label
  rw [hrec, hdb]
  simp [hidx]

/-- The state used by the C10 witness: the 5-row unit with its index
row and store present. -/
def exSt10 : WaferState :=
  ⟨exampleFolder5, some exRec9, some exDb9⟩

theorem c10_witness :
    (¬ (0 ≤ (10 : Int) ∧ (10 : Int) < ((exDb9.rows.length : Nat) : Int))) ∧
    save_label exSt10 10 ("Particle") none none 3 =
      ({ exSt10 with
          record := some (sync_progress exSt10.folder (some exDb9) exRec9 3).1
          innerDB := (sync_progress exSt10.folder (some exDb9) exRec9 3).2 },
        ⟨true, none⟩) :=
  ⟨by decide,
   c10_out_of_range_label exSt10 exRec9 exDb9 10 ("Particle") none none 3
     rfl rfl (by decide)⟩


/- ## Exact endpoint evaluations of the progress pipeline -/

/-- An exact multiple of the divisor rounds to its quotient. -/
theorem intRound_mul_cancel (t c : ℤ) (ht : 0 < t) :
    intRoundHalfEven (t * c) t = c := by
  unfold intRoundHalfEven
  rw [Int.mul_emod_right, Int.mul_ediv_cancel_left c (ne_of_gt ht)]
  simp only [mul_zero]
  rw [if_pos ht]

/-- With `total` not positive the pipeline stores progress 0. -/
theorem progress100_of_nonpos (l total : ℤ) (ht : ¬ 0 < total) :
    progress100_of l total = 0 := by
  unfold progress100_of
  rw [if_neg ht]

/-- With no labeled defects the pipeline stores progress 0 for every
total. -/
theorem progress100_of_zero (total : ℤ) : progress100_of 0 total = 0 := by
  unfold progress100_of divD fitD
  split
  · norm_num
  · rfl

/-- The double division `t / t` is exactly 1: mantissa `2 ^ 52`,
exponent `-52`. -/
theorem divD_self (t : ℤ) (ht : 0 < t) : divD t t = (2 ^ 52, -52) := by
  have h0 : ¬ (t = 0) := ht.ne'
  unfold divD divDpos
  rw [if_neg h0, if_pos ht]
  simp only [sub_self, neg_zero, max_self, Int.toNat_zero, pow_zero, mul_one,
    le_refl, if_true, zero_sub,
    max_eq_left (show (-1074 : ℤ) ≤ -52 by norm_num)]
  rw [if_neg (by norm_num : ¬ (0 : ℤ) ≤ -52)]
  simp only [neg_neg]
  rw [show Int.toNat 52 = 52 from rfl, intRound_mul_cancel t (2 ^ 52) ht]

/-- With every defect labeled the pipeline stores progress exactly
100.00 for every positive total: `t / t` is the exact double 1.0 and
the rest of the pipeline is exact. -/
theorem progress100_of_self (t : ℤ) (ht : 0 < t) :
    progress100_of t t = 10000 := by
  unfold progress100_of
  rw [if_pos ht, divD_self t ht]
  decide

/- ## Claim C4 -/

/-- C4 counterexample: at `labeled = 99999`, `total = 100000` the
claim requires in_progress (since `0 < labeled < total`), but the code
rounds 99.999 percent to 100.00 in double precision and derives
complete. -/
theorem c4_counterexample :
    label_status_of 99999 100000 = 2 ∧
    ¬ (label_status_of 99999 100000 = 1 ↔
        ((0 : ℤ) < 99999 ∧ (99999 : ℤ) < 100000)) := by
  decide

/-- C4 (amended): over all non-negative integer pairs with
`labeled ≤ total`, the derived status is complete exactly when `total`
is positive and the double-precision percentage rounds to exactly
100.00 (`progress100_of _ _ = 10000`); that condition holds whenever
`labeled = total` (last conjunct), but also for some `labeled < total`
such as 99999 of 100000 (the counterexample).  The status is
in_progress exactly when some defect is labeled and the rounded
percentage is not 100.00, and not_started exactly when no defect is
labeled. -/
theorem c4_amended_label_status (labeled total : ℕ) (h : labeled ≤ total) :
    (label_status_of (labeled : ℤ) (total : ℤ) = 2 ↔
      (0 < total ∧ progress100_of (labeled : ℤ) (total : ℤ) = 10000)) ∧
    (label_status_of (labeled : ℤ) (total : ℤ) = 1 ↔
      (0 < labeled ∧ progress100_of (labeled : ℤ) (total : ℤ) ≠ 10000)) ∧
    (label_status_of (labeled : ℤ) (total : ℤ) = 0 ↔ labeled = 0) ∧
    (labeled = total → 0 < total →
      label_status_of (labeled : ℤ) (total : ℤ) = 2) := by
  have hself : labeled = total → 0 < total →
      progress100_of (labeled : ℤ) (total : ℤ) = 10000 := by
    intro heq ht
    subst heq
    exact progress100_of_self _ (by exact_mod_cast ht)
  unfold label_status_of label_status_from_progress
  by_cases hn : progress100_of (labeled : ℤ) (total : ℤ) = 10000
  · rw [if_pos hn]
    have htpos : 0 < total := by
      by_contra htz
      rw [progress100_of_nonpos _ _ (by exact_mod_cast htz)] at hn
      exact absurd hn (by norm_num)
    have hlpos : labeled ≠ 0 := by
      intro hl0
      subst hl0
      rw [Nat.cast_zero, progress100_of_zero] at hn
      exact absurd hn (by norm_num)
    refine ⟨?_, ?_, ?_, ?_⟩
    · exact ⟨fun _ => ⟨htpos, hn⟩, fun _ => rfl⟩
    · constructor
      · intro h2
        exact absurd h2 (by norm_num)
      · rintro ⟨_, hne⟩
        exact absurd hn hne
    · constructor
      · intro h2
        exact absurd h2 (by norm_num)
      · intro h0
        exact absurd h0 hlpos
    · intro _ _
      rfl
  · rw [if_neg hn]
    by_cases hl : (0 : ℤ) < (labeled : ℤ)
    · rw [if_pos hl]
      have hlN : 0 < labeled := by exact_mod_cast hl
      refine ⟨?_, ?_, ?_, ?_⟩
      · constructor
        · intro h1
          exact absurd h1 (by norm_num)
        · rintro ⟨_, h10⟩
          exact absurd h10 hn
      · exact ⟨fun _ => ⟨hlN, hn⟩, fun _ => rfl⟩
      · constructor
        · intro h1
          exact absurd h1 (by norm_num)
        · intro h0
          omega
      · intro heq ht
        exact absurd (hself heq ht) hn
    · rw [if_neg hl]
      have hl0 : labeled = 0 := by
        have hle : (labeled : ℤ) ≤ 0 := not_lt.mp hl
        exact_mod_cast le_antisymm (by exact_mod_cast hle) (Nat.zero_le _)
      refine ⟨?_, ?_, ?_, ?_⟩
      · constructor
        · intro h0
          exact absurd h0 (by norm_num)
        · rintro ⟨_, h10⟩
          exact absurd h10 hn
      · constructor
        · intro h0
          exact absurd h0 (by norm_num)
        · rintro ⟨hpos, _⟩
          omega
      · exact ⟨fun _ => hl0, fun _ => rfl⟩
      · intro heq ht
        omega

theorem c4_witness :
    (1 : ℕ) ≤ 5 ∧
    ((label_status_of ((1 : ℕ) : ℤ) ((5 : ℕ) : ℤ) = 2 ↔
        (0 < (5 : ℕ) ∧ progress100_of ((1 : ℕ) : ℤ) ((5 : ℕ) : ℤ) = 10000)) ∧
      (label_status_of ((1 : ℕ) : ℤ) ((5 : ℕ) : ℤ) = 1 ↔
        (0 < (1 : ℕ) ∧ progress100_of ((1 : ℕ) : ℤ) ((5 : ℕ) : ℤ) ≠ 10000)) ∧
      (label_status_of ((1 : ℕ) : ℤ) ((5 : ℕ) : ℤ) = 0 ↔ (1 : ℕ) = 0) ∧
      ((1 : ℕ) = 5 → 0 < (5 : ℕ) →
        label_status_of ((1 : ℕ) : ℤ) ((5 : ℕ) : ℤ) = 2)) :=
  ⟨by decide, c4_amended_label_status 1 5 (by decide)⟩

/- ## Claim C5 -/

/-- The integer half-to-even rounding agrees with the rational one on
exact quotients with positive denominator. -/
theorem ratRound_intCast_div (a : ℤ) (n : ℕ) (hn : 0 < n) :
    ratRound ((a : ℚ) / (n : ℚ)) = intRoundHalfEven a (n : ℤ) := by
  have hnQ : (0 : ℚ) < (n : ℚ) := by exact_mod_cast hn
  have hnQ' : (n : ℚ) ≠ 0 := ne_of_gt hnQ
  have hfloor : ratFloor ((a : ℚ) / (n : ℚ)) = a / (n : ℤ) := by
    rw [ratFloor_eq]
    exact Rat.floor_intCast_div_natCast a n
  have hfrac : (a : ℚ) / (n : ℚ) - ((a / (n : ℤ) : ℤ) : ℚ)
      = ((a % (n : ℤ) : ℤ) : ℚ) / (n : ℚ) := by
    rw [Int.emod_def]
    push_cast
    field_simp
  have h1 : (2 * (((a % (n : ℤ) : ℤ) : ℚ) / (n : ℚ)) < 1) ↔
      (2 * (a % (n : ℤ)) < (n : ℤ)) := by
    rw [show (2 : ℚ) * (((a % (n : ℤ) : ℤ) : ℚ) / (n : ℚ))
        = ((2 * (a % (n : ℤ)) : ℤ) : ℚ) / (n : ℚ) by push_cast; ring]
    rw [div_lt_one hnQ]
    exact_mod_cast Iff.rfl
  have h2 : (1 < 2 * (((a % (n : ℤ) : ℤ) : ℚ) / (n : ℚ))) ↔
      ((n : ℤ) < 2 * (a % (n : ℤ))) := by
    rw [show (2 : ℚ) * (((a % (n : ℤ) : ℤ) : ℚ) / (n : ℚ))
        = ((2 * (a % (n : ℤ)) : ℤ) : ℚ) / (n : ℚ) by push_cast; ring]
    rw [one_lt_div hnQ]
    exact_mod_cast Iff.rfl
  unfold ratRound intRoundHalfEven
  rw [hfloor, hfrac]
  simp only [h1, h2]

/-- Exact rounding fixes integers. -/
theorem ratFloor_intCast (n : ℤ) : ratFloor (n : ℚ) = n := by
  unfold ratFloor
  rw [Rat.num_intCast, Rat.den_intCast]
  norm_num

theorem ratRound_intCast (n : ℤ) : ratRound (n : ℚ) = n := by
  unfold ratRound
  rw [ratFloor_intCast]
  norm_num

theorem ratRound_zero : ratRound 0 = 0 := by
  simpa using ratRound_intCast 0

theorem roundQ2_zero : roundQ2 0 = 0 := by
  unfold roundQ2
  rw [zero_mul, ratRound_zero]
  norm_num

theorem roundQ2_hundred : roundQ2 100 = 100 := by
  unfold roundQ2
  rw [show (100 : ℚ) * 100 = ((10000 : ℤ) : ℚ) by norm_num, ratRound_intCast]
  norm_num

/-- C5 counterexample: at `labeled = 23`, `total = 160` the program
stores 14.37 — the double nearest 23/160 lies just below 0.14375 and
its product with 100 is the double 14.374999999999998, which rounds
down — while the exact two-decimal rounding of the true percentage
14.375 is 14.38 (the half tie rounds up to the even 1438).  So the
stored progress does not equal `round(labeled/total*100, 2)` read as
exact arithmetic on the ratio. -/
theorem c5_counterexample :
    progress100_of 23 160 = 1437 ∧
    roundQ2 ((23 : ℚ) / (160 : ℚ) * 100) = 1438 / 100 ∧
    ¬ ((progress100_of 23 160 : ℚ) / 100 =
        roundQ2 ((23 : ℚ) / (160 : ℚ) * 100)) := by
  have h1 : progress100_of 23 160 = 1437 := by decide
  have h2 : roundQ2 ((23 : ℚ) / (160 : ℚ) * 100) = 1438 / 100 := by
    unfold roundQ2
    rw [show (23 : ℚ) / (160 : ℚ) * 100 * 100
        = ((230000 : ℤ) : ℚ) / ((160 : ℕ) : ℚ) by norm_num]
    rw [ratRound_intCast_div 230000 160 (by norm_num)]
    norm_num [show intRoundHalfEven 230000 160 = 1438 from by decide]
  refine ⟨h1, h2, ?_⟩
  rw [h1, h2]
  norm_num

/-- C5 (amended): the success arm of the reconciliation stores exactly
the progress computed by the double-precision pipeline of lines
537-538 (`progress100_of`, under the exact `progress100` encoding);
the pipeline is a total function — no division fault — storing 0
whenever `total = 0`; and it agrees with the exact rational
`round(labeled/total*100, 2)` at the endpoints `labeled = 0` and
`labeled = total`.  Away from the endpoints the stored value can
differ from the exact rounding by one hundredth, because the program
rounds the double, not the ratio (counterexample at 23 of 160). -/
theorem c5_amended_progress_formula (f : Folder) (odb : Option InnerDB)
    (rec : WaferRecord) (now : Nat) (labeled total : ℤ) :
    ((sync_progress f odb rec now).1.parsed_status = 1 →
      (sync_progress f odb rec now).1.progress100 =
        progress100_of (sync_progress f odb rec now).1.labeled_defects
          (sync_progress f odb rec now).1.total_defects) ∧
    progress100_of labeled 0 = 0 ∧
    (0 < total →
      (progress100_of 0 total : ℚ) / 100 =
        roundQ2 ((0 : ℚ) / (total : ℚ) * 100) ∧
      (progress100_of total total : ℚ) / 100 =
        roundQ2 ((total : ℚ) / (total : ℚ) * 100)) := by
  refine ⟨?_, progress100_of_nonpos labeled 0 (by norm_num), fun ht => ⟨?_, ?_⟩⟩
  · unfold sync_progress
    by_cases hraw : f.hasRawData
    · simp only [hraw, if_true]
      by_cases hempty : (filterLines f.rawDataLines).length < 1
      · intro hcon
        simp [hempty, errorUpdate] at hcon
      · simp only [hempty, if_false]
        cases hdb : create_inner_database f.rawDataLines false with
        | none =>
          intro hcon
          simp [errorUpdate] at hcon
        | some db =>
          intro hok
          simp [successUpdate]
    · intro hcon
      simp [hraw, errorUpdate] at hcon
  · rw [progress100_of_zero total, zero_div, zero_mul, roundQ2_zero]
    norm_num
  · have htZ : (0 : ℚ) < (total : ℚ) := by exact_mod_cast ht
    rw [progress100_of_self total ht, div_self (ne_of_gt htZ), one_mul,
      roundQ2_hundred]
    norm_num

theorem c5_witness :
    (0 : ℤ) < 2 ∧
    ((progress100_of 0 2 : ℚ) / 100 =
        roundQ2 ((0 : ℚ) / ((2 : ℤ) : ℚ) * 100) ∧
      (progress100_of 2 2 : ℚ) / 100 =
        roundQ2 (((2 : ℤ) : ℚ) / ((2 : ℤ) : ℚ) * 100)) :=
  ⟨by decide,
   (c5_amended_progress_formula exampleFolder5 none exRec9 0 0 2).2.2 (by decide)⟩
